import Mathlib

/-!
Verification development for the MegaCare Connect backend
(`mega-care-api`): a shallow embedding of the Firestore-backed REST
handlers in `app/api/v1/endpoints/customers.py`,
`app/api/v1/endpoints/clinicians.py`, `app/routers/users.py`,
`app/dependencies/auth.py` and the request schemas in
`app/api/v1/schemas.py`, together with theorems about the
device-linking / identity-reconciliation workflow and the surrounding
CRUD handlers.

Modelling conventions:
* Firestore documents are association lists from field names to a small
  value type `Value`; lookups go through `dGet`, writes through `dSet`,
  so only the key-value view of a document is observable.
* Collections are association lists from document ids to documents.
* Python dict truthiness (`if val:`) on string fields is modelled by
  `truthyStr`, which treats a missing field, a null value, and the
  empty string as falsy, exactly as the Python code does.
* Firestore server timestamps (`datetime.now(timezone.utc)`) are passed
  in explicitly as a `Nat` parameter `now`; auto-generated document ids
  are passed in as a `freshId` parameter.
* Pydantic v2 exposes model attributes under their field names only —
  an alias is never an attribute — and `model_dump(by_alias=True)`
  emits the alias keys.  The `app/api/v1` handlers mix those two casing
  conventions: `link_device_to_profile` reads
  `link_request.serial_number` off a model whose field is
  `serialNumber`, `submit_daily_report` reads `report_in.report_date`
  off a model whose field is `reportDate` (both raise `AttributeError`,
  which FastAPI surfaces as a 500 response, before any store access),
  and `create_customer_profile` checks camelCase keys in a dump whose
  keys are snake_case aliases.  The embedding reproduces these
  behaviours; the code that sits beyond an unconditional crash is dead
  and is not modelled.
-/

namespace MegaCare

/-- Field values stored in Firestore documents.  Nested maps (such as
`lineProfile`) are never inspected by the code under verification, so a
nested map is represented by whatever flat value the test fixture puts
there; `vStrList` covers the `assignedPatients` array of patient ids. -/
inductive Value where
  | vStr (s : String)
  | vNat (n : Nat)
  | vTime (t : Nat)
  | vDate (y m d : Nat)
  | vStrList (xs : List String)
  | vNull
deriving DecidableEq, Repr

/-- Python `f"{x}"` stringification, used by `create_customer_profile`
to derive `displayName` from `firstName`/`lastName`. -/
def Value.pyStr : Value → String
  | .vStr s => s
  | .vNat n => toString n
  | .vTime t => toString t
  | .vDate y m d => toString y ++ "-" ++ toString m ++ "-" ++ toString d
  | .vStrList xs => toString xs
  | .vNull => "None"

/-- A Firestore document: an association list of named fields. -/
def Doc := List (String × Value)
deriving DecidableEq, Repr

instance : Inhabited Doc := ⟨([] : List (String × Value))⟩

/-- Field lookup (`doc.get(k)` / `k in doc` in Python): first binding wins. -/
def dGet (d : Doc) (k : String) : Option Value :=
  match d with
  | [] => none
  | (k', v) :: rest => if k' = k then some v else dGet rest k

/-- Field assignment (`doc[k] = v` in Python): the old binding is dropped. -/
def dSet (d : Doc) (k : String) (v : Value) : Doc :=
  (k, v) :: (List.filter (fun p => !(p.1 = k : Bool)) d)

/-- Python `k in doc`. -/
def dHas (d : Doc) (k : String) : Bool :=
  (dGet d k).isSome

theorem dGet_dSet_same (d : Doc) (k : String) (v : Value) :
    dGet (dSet d k v) k = some v := by
  simp [dGet, dSet]

theorem dGet_dSet_other (d : Doc) (k k' : String) (v : Value) (h : k' ≠ k) :
    dGet (dSet d k v) k' = dGet d k' := by
  simp only [dSet, dGet, if_neg (Ne.symm h)]
  induction d with
  | nil => simp [dGet]
  | cons p rest ih =>
    by_cases hp : p.1 = k
    · simp [List.filter, hp, dGet, Ne.symm h, ih]
    · simp only [List.filter, hp]
      by_cases hk' : p.1 = k'
      · simp [dGet, hk']
      · simp [dGet, hk', ih]

/-- A generic association-list collection keyed by `κ` (a collection of
documents, or the collection-group view keyed by owner and id). -/
def Assoc (κ : Type) := List (κ × Doc)

instance : Inhabited (Assoc κ) := ⟨([] : List (κ × Doc))⟩
instance [DecidableEq κ] : DecidableEq (Assoc κ) :=
  inferInstanceAs (DecidableEq (List (κ × Doc)))

/-- Document lookup by id; a missing document is `none`, not an error. -/
def aGet [DecidableEq κ] (l : Assoc κ) (k : κ) : Option Doc :=
  match l with
  | [] => none
  | (k', v) :: rest => if k' = k then some v else aGet rest k

/-- Full-replace write at a document id (Firestore `set` without merge). -/
def aSet [DecidableEq κ] (l : Assoc κ) (k : κ) (d : Doc) : Assoc κ :=
  (k, d) :: (List.filter (fun p => !(p.1 = k : Bool)) (l : List (κ × Doc)))

theorem aGet_aSet_same [DecidableEq κ] (l : Assoc κ) (k : κ) (d : Doc) :
    aGet (aSet l k d) k = some d := by
  simp [aGet, aSet]

theorem aGet_aSet_other [DecidableEq κ] (l : Assoc κ) (k k' : κ) (d : Doc)
    (h : k' ≠ k) : aGet (aSet l k d) k' = aGet l k' := by
  simp only [aSet, aGet, if_neg (Ne.symm h)]
  induction l with
  | nil => simp [aGet]
  | cons p rest ih =>
    by_cases hp : p.1 = k
    · simp [List.filter, hp, aGet, Ne.symm h, ih]
    · simp only [List.filter, hp]
      by_cases hk' : p.1 = k'
      · simp [aGet, hk']
      · simp [aGet, hk', ih]

theorem aSet_aSet_same [DecidableEq κ] (l : Assoc κ) (k : κ) (d d' : Doc) :
    aSet (aSet l k d) k d' = aSet l k d' := by
  simp [aSet, List.filter_filter]

/-- Python string truthiness of a document field (`val = d.get(k)` then
`if val:`): a missing field, a stored null, and the empty string are all
falsy; a non-empty string yields the string.  The code only ever uses
this on fields that hold string ids. -/
def truthyStr (v : Option Value) : Option String :=
  match v with
  | some (Value.vStr s) => if s = "" then none else some s
  | _ => none

/-- `doc.get("assignedPatients", [])` followed by a membership test: the
field always holds an array of patient-id strings; a missing field
defaults to the empty list. -/
def getStrList (d : Doc) (k : String) : List String :=
  match dGet d k with
  | some (Value.vStrList xs) => xs
  | _ => []

/-- One document of a `devices` subcollection, as seen by the
collection-group query: its own id, its data, and the id of the parent
document two levels up (`reference.parent.parent`).  `owner = none`
models a device sitting in a root-level `devices` collection, whose
`parent.parent` is `None`. -/
structure Device where
  owner : Option String
  id : String
  data : Doc
deriving DecidableEq, Repr

/-- The slice of the Firestore database the verified handlers touch. -/
structure Store where
  customers : Assoc String
  clinicians : Assoc String
  patientList : Assoc String
  devices : List Device
  dailyReports : Assoc (String × String)
deriving DecidableEq

/-- An HTTP response carrying at most one document body (error
responses carry only a `detail` string, which is not modelled). -/
structure Resp where
  status : Nat
  body : Option Doc
deriving DecidableEq, Repr

/-- An HTTP response carrying a list of documents. -/
structure ListResp where
  status : Nat
  items : List Doc
deriving DecidableEq, Repr

/-! ## The device-linking reconciliation engine
(`link_device_to_profile` in `app/api/v1/endpoints/customers.py`). -/

/-- The validated request body (`schemas.DeviceLinkRequest`). -/
structure DeviceLinkReq where
  serialNumber : String
  deviceNumber : String
deriving DecidableEq, Repr

/-- Failure flags for the three best-effort writes of the workflow the
handler's docstring and tests describe (each would model the
corresponding Firestore call raising).  They are kept in the handler's
signature, but the handler as written fails before it reaches any
best-effort step. -/
structure BestEffort where
  failCopy : Bool
  failDeviceUpdate : Bool
  failAddDevice : Bool
deriving DecidableEq, Repr

/-- No best-effort write fails. -/
def BestEffort.none' : BestEffort := ⟨false, false, false⟩

/-- `POST /customers/me/link-device` (`link_device_to_profile`,
`customers.py:242-403`) on a validated request.

The handler's first use of the request is building the device query
filter: `FieldFilter("serialNumber", "==", link_request.serial_number)`
at `customers.py:265`.  But `schemas.DeviceLinkRequest` declares its
fields as `serialNumber`/`deviceNumber` — `serial_number` and
`device_number` are only their validation aliases, and pydantic v2
never exposes an alias as an attribute — so this line raises
`AttributeError` on every invocation.  FastAPI turns the unhandled
exception into a 500 response.  The crash happens before the
collection-group query, so no document is read or written; the whole
reconciliation workflow that follows (device discovery, parent
resolution, compensating copy, profile merge commit, best-effort device
update and device-record creation, and the final
`schemas.Customer.model_validate` of the re-read profile) is dead
code and is therefore not modelled. -/
def linkDevice (db : Store) (_uid : String) (_req : DeviceLinkReq)
    (_flags : BestEffort) (_now : Nat) (_freshId : String) : Resp × Store :=
  ({ status := 500, body := none }, db)

/-! ## Request-body validation for `POST /customers/me/link-device`
(`schemas.DeviceLinkRequest`: `serial_number` and `device_number` are
both declared with `Field(...)`, i.e. required, and `device_number`
must be exactly 3 characters). -/

/-- The raw JSON body: which of the two fields were supplied (a field
of the wrong JSON type is modelled as absent, since either way the
framework rejects the payload). -/
structure RawLinkPayload where
  serialNumber : Option String
  deviceNumber : Option String
deriving DecidableEq, Repr

/-- Pydantic validation of `DeviceLinkRequest`: both fields required,
`deviceNumber` constrained to `min_length=3, max_length=3`. -/
def parseDeviceLinkRequest (p : RawLinkPayload) : Option DeviceLinkReq :=
  match p.serialNumber, p.deviceNumber with
  | some s, some d => if d.length = 3 then some ⟨s, d⟩ else none
  | _, _ => none

/-- The full endpoint: validation, then the reconciliation engine; a
payload that fails validation is rejected with 422 and never reaches
the engine. -/
def linkDeviceEndpoint (db : Store) (uid : String) (p : RawLinkPayload)
    (flags : BestEffort) (now : Nat) (freshId : String) : Resp × Store :=
  match parseDeviceLinkRequest p with
  | none => ({ status := 422, body := none }, db)
  | some req => linkDevice db uid req flags now freshId

/-! ## `POST /customers/me` (`create_customer_profile`). -/

/-- The validated `CustomerProfilePayload`: for each of its thirteen
optional fields, `none` means the caller left the field unset and
`some v` means the caller set it to `v` (`some Value.vNull` is an
explicit null). -/
structure ProfilePayload where
  lineId : Option Value
  displayName : Option Value
  title : Option Value
  firstName : Option Value
  lastName : Option Value
  dob : Option Value
  location : Option Value
  status : Option Value
  airViewNumber : Option Value
  monitoringType : Option Value
  availableData : Option Value
  dealerPatientId : Option Value
  lineProfile : Option Value
deriving DecidableEq, Repr

/-- Prepend the binding `(k, v)` when the field was set. -/
def consOpt (k : String) (v : Option Value) (d : Doc) : Doc :=
  match v with
  | none => d
  | some w => (k, w) :: d

/-- `customer_in.model_dump(by_alias=True, exclude_unset=True)`: the
dumped dict holds exactly the fields the caller set, keyed by their
aliases — and with `alias_generator=to_snake_case` every alias is the
snake_case rendering of the field name (`displayName` ↦
`display_name`, `firstName` ↦ `first_name`, …). -/
def dumpProfilePayload (p : ProfilePayload) : Doc :=
  consOpt "line_id" p.lineId
    (consOpt "display_name" p.displayName
      (consOpt "title" p.title
        (consOpt "first_name" p.firstName
          (consOpt "last_name" p.lastName
            (consOpt "dob" p.dob
              (consOpt "location" p.location
                (consOpt "status" p.status
                  (consOpt "air_view_number" p.airViewNumber
                    (consOpt "monitoring_type" p.monitoringType
                      (consOpt "available_data" p.availableData
                        (consOpt "dealer_patient_id" p.dealerPatientId
                          (consOpt "line_profile" p.lineProfile []))))))))))))

/-- The body of `create_customer_profile` (`customers.py:24-77`) over
the already-dumped dict: 409 when a profile already exists at the
caller's id; otherwise derive `displayName` from `firstName`/`lastName`
when those camelCase keys are present, require a camelCase
`displayName` key (else 422), stamp `setupDate` with the server time,
write, and re-read.  Note the casing: the membership checks use
camelCase keys, while the dict the endpoint actually passes in
(`dumpProfilePayload`) carries only snake_case keys, so for every
payload the endpoint can produce, the 422 branch is taken whenever no
profile exists.  The 201 branch's closing
`schemas.Customer.model_validate` (which would require a `createDate`
the handler never writes) is unreachable and not modelled. -/
def createCustomerProfile (db : Store) (uid : String) (payload : Doc)
    (now : Nat) : Resp × Store :=
  match aGet db.customers uid with
  | some _ => ({ status := 409, body := none }, db)
  | none =>
    let data1 :=
      if ¬ dHas payload "displayName" ∧ dHas payload "firstName" ∧
         dHas payload "lastName" then
        dSet payload "displayName"
          (Value.vStr (((dGet payload "firstName").getD Value.vNull).pyStr
            ++ " " ++ ((dGet payload "lastName").getD Value.vNull).pyStr))
      else payload
    if ¬ dHas data1 "displayName" then ({ status := 422, body := none }, db)
    else
      let data2 := dSet data1 "setupDate" (Value.vTime now)
      let db' := { db with customers := aSet db.customers uid data2 }
      match aGet db'.customers uid with
      | none => ({ status := 500, body := none }, db')
      | some doc =>
        ({ status := 201,
           body := some (dSet doc "patientId" (Value.vStr uid)) }, db')

/-- The endpoint: FastAPI validates the body into a
`CustomerProfilePayload`, the handler dumps it with
`model_dump(by_alias=True, exclude_unset=True)` and runs on the
resulting (snake_case-keyed) dict. -/
def createCustomerProfileEndpoint (db : Store) (uid : String)
    (p : ProfilePayload) (now : Nat) : Resp × Store :=
  createCustomerProfile db uid (dumpProfilePayload p) now

/-! ## Daily reports (`submit_daily_report`, `get_my_daily_reports`). -/

/-- A calendar date as carried by the report-date field. -/
structure RDate where
  y : Nat
  m : Nat
  d : Nat
deriving DecidableEq, Repr

/-- The validated body of `POST /customers/me/dailyReports`
(`schemas.DailyReportCreate`): the report date plus the remaining
validated fields, already under their aliased keys. -/
structure DailyReportIn where
  reportDate : RDate
  rest : Doc
deriving DecidableEq

/-- `submit_daily_report` (`customers.py:405-437`): its first statement
after reading the uid is `report_id =
report_in.report_date.strftime('%Y-%m-%d')` (`customers.py:416`), but
`DailyReportBase`'s field is `reportDate` — `report_date` is only its
snake_case validation alias, never an attribute — so every submission
raises `AttributeError`, which FastAPI surfaces as 500, before the
document reference is even formed.  No write ever happens; the
date-keyed `set` the docstring describes is dead code and is not
modelled. -/
def submitDailyReport (db : Store) (_uid : String) (_r : DailyReportIn) :
    Resp × Store :=
  ({ status := 500, body := none }, db)

/-- `Query(30, ge=1, le=100)`: a missing `limit` defaults to 30, an
out-of-range one is rejected by validation (422). -/
def validateLimit : Option Int → Option Nat
  | none => some 30
  | some n => if 1 ≤ n ∧ n ≤ 100 then some n.toNat else none

/-- Lexicographic order on (year, month, day) date keys. -/
def dkLe (a b : Nat × Nat × Nat) : Bool :=
  decide (a.1 < b.1 ∨ (a.1 = b.1 ∧ (a.2.1 < b.2.1 ∨
    (a.2.1 = b.2.1 ∧ a.2.2 ≤ b.2.2))))

/-- Insert into a list sorted by `r` (`r x y` = `x` may precede `y`). -/
def insSorted (r : α → α → Bool) (x : α) : List α → List α
  | [] => [x]
  | y :: ys => if r x y then x :: y :: ys else y :: insSorted r x ys

/-- Insertion sort by `r`; models the ordering the Firestore
`order_by(...).limit(...)` query contractually returns. -/
def sortOrd (r : α → α → Bool) : List α → List α
  | [] => []
  | x :: xs => insSorted r x (sortOrd r xs)

/-- One sortable entry of a `dailyReports` query result: date key,
document id, document.  Firestore omits from an `order_by` query any
document lacking the ordered field, hence the `Option`. -/
def reportEntry (uid : String) (e : (String × String) × Doc) :
    Option ((Nat × Nat × Nat) × String × Doc) :=
  if e.1.1 = uid then
    match dGet e.2 "reportDate" with
    | some (Value.vDate y m d) => some ((y, m, d), e.1.2, e.2)
    | _ => none
  else none

/-- Descending comparison on report entries (`DESCENDING` order). -/
def rDesc (a b : (Nat × Nat × Nat) × String × Doc) : Bool :=
  dkLe b.1 a.1

/-- The `order_by("reportDate", DESCENDING).limit(limit)` query over
`customers/{uid}/dailyReports`, reshaped with `reportId` = doc id. -/
def listDailyReports (db : Store) (uid : String) (limit : Nat) :
    List Doc :=
  let entries := db.dailyReports.filterMap (reportEntry uid)
  ((sortOrd rDesc entries).take limit).map
    (fun e => dSet e.2.2 "reportId" (Value.vStr e.2.1))

/-- `get_my_daily_reports`. -/
def getMyDailyReports (db : Store) (uid : String) (limit : Option Int) :
    ListResp :=
  match validateLimit limit with
  | none => { status := 422, items := [] }
  | some n => { status := 200, items := listDailyReports db uid n }

/-! ## Clinician endpoints (`app/api/v1/endpoints/clinicians.py`). -/

/-- The clinician's `assignedPatients` roster: `none` when the
clinician document itself is missing. -/
def assignedOf (db : Store) (clinUid : String) : Option (List String) :=
  match aGet db.clinicians clinUid with
  | none => none
  | some cdoc => some (getStrList cdoc "assignedPatients")

/-- `GET /clinician/patients/{patientId}` (`get_patient_profile`): the
authorization check runs before the patient lookup, so an unauthorized
clinician gets 403 no matter what the `customers` collection holds. -/
def getPatientProfile (db : Store) (clinUid patientId : String) : Resp :=
  match assignedOf db clinUid with
  | none => { status := 403, body := none }
  | some xs =>
    if patientId ∈ xs then
      match aGet db.customers patientId with
      | none => { status := 404, body := none }
      | some cdoc =>
        { status := 200,
          body := some (dSet cdoc "patientId" (Value.vStr patientId)) }
    else { status := 403, body := none }

/-- `GET /clinician/patients/{patientId}/dailyReports`
(`get_patient_daily_reports`), with the same authorization check. -/
def getPatientDailyReports (db : Store) (clinUid patientId : String)
    (limit : Nat) : ListResp :=
  match assignedOf db clinUid with
  | none => { status := 403, items := [] }
  | some xs =>
    if patientId ∈ xs then
      { status := 200, items := listDailyReports db patientId limit }
    else { status := 403, items := [] }

/-! ## Remote token verification (`_verify_line_token` in
`app/dependencies/auth.py`). -/

/-- The JSON body of an upstream-accepted introspection response, as
far as the verifier inspects it. -/
structure IntrospectionResp where
  clientId : Option String
  sub : Option String
deriving DecidableEq, Repr

/-- `_verify_line_token` after a successful upstream call: reject with
401 when `client_id` differs from the configured channel id, reject
with 401 when `sub` is missing or falsy (Python `if not line_id:`
treats the empty string like a missing field), otherwise return the
subject id. -/
def verifyLineToken (channelId : String) (d : IntrospectionResp) :
    Except Nat String :=
  if d.clientId ≠ some channelId then Except.error 401
  else
    match d.sub with
    | none => Except.error 401
    | some s => if s = "" then Except.error 401 else Except.ok s

/-- The verifier paired with the store it runs against: the function
body contains no store operation at all, so the store passes through
untouched (verification is read-only). -/
def verifyLineTokenSt (db : Store) (channelId : String)
    (d : IntrospectionResp) : Except Nat String × Store :=
  (verifyLineToken channelId d, db)

/-! ## The alternative link-account variant (`link_account` in
`app/routers/users.py`). -/

/-- The device query of `link_account`: serial number match only, no
status filter, first match wins. -/
def findDeviceBySerial (db : Store) (sn : String) : Option Device :=
  db.devices.find? (fun dv =>
    decide (dGet dv.data "serialNumber" = some (Value.vStr sn)))

/-- `link_account`: find the device, take its parent customer, then
refuse to overwrite a truthy `lineId` that differs from the caller's
(409), skip the write when it already equals the caller's (204), and
write the caller's line id only when the parent has no truthy `lineId`.
A device without a parent document, or a parent whose document is
missing, makes the Python code dereference `None` — an unhandled
exception surfacing as 500. -/
def linkAccount (db : Store) (lineId : String) (serialNumber : String) :
    Resp × Store :=
  match findDeviceBySerial db serialNumber with
  | none => ({ status := 404, body := none }, db)
  | some dev =>
    match dev.owner with
    | none => ({ status := 500, body := none }, db)
    | some cid =>
      match aGet db.customers cid with
      | none => ({ status := 500, body := none }, db)
      | some cdoc =>
        match truthyStr (dGet cdoc "lineId") with
        | some s =>
          if s ≠ lineId then ({ status := 409, body := none }, db)
          else ({ status := 204, body := none }, db)
        | none =>
          let newCustomers :=
            aSet db.customers cid (dSet cdoc "lineId" (Value.vStr lineId))
          ({ status := 204, body := none }, { db with customers := newCustomers })

/-! ## Concrete sample fixtures, mirroring the repository's own test
data (used by witnesses and counterexamples). -/

def emptyStore : Store :=
  { customers := [], clinicians := [], patientList := [],
    devices := [], dailyReports := [] }

/-- The pre-provisioned parent profile of the repo's link-device test. -/
def samplePreDoc : Doc :=
  [("displayName", Value.vStr "John Firestore"),
   ("firstName", Value.vStr "John"),
   ("dob", Value.vDate 1985 6 15),
   ("status", Value.vStr "Active"),
   ("createDate", Value.vTime 100)]

/-- An `unlink` device parented by the pre-provisioned profile. -/
def sampleDevDoc : Doc :=
  [("serialNumber", Value.vStr "SN123456789"),
   ("deviceNumber", Value.vStr "987"),
   ("status", Value.vStr "unlink")]

/-- The caller's own pre-link profile, from LINE login. -/
def sampleCallerDoc : Doc :=
  [("lineId", Value.vStr "abc"),
   ("displayName", Value.vStr "Test User From Line"),
   ("lineProfile", Value.vStr "line-profile-snapshot")]

/-- The claim's linking scenario: an `unlink` device `SN123456789`
whose parent profile exists, and caller `abc` holding pre-link
authentication fields. -/
def sampleLinkDb : Store :=
  { customers := [("pre123", samplePreDoc), ("abc", sampleCallerDoc)],
    clinicians := [], patientList := [],
    devices := [⟨some "pre123", "dev1", sampleDevDoc⟩],
    dailyReports := [] }

/-- The state the claim's idempotency scenario posits (a completed
link): the only device carrying the serial number has status `active`
and is owned by caller `abc`, whose profile holds the merged fields. -/
def sampleLinkedDb : Store :=
  { customers :=
      [("abc", [("patientId", Value.vNull),
                ("lineId", Value.vStr "abc"),
                ("lineProfile", Value.vStr "line-profile-snapshot"),
                ("displayName", Value.vStr "John Firestore"),
                ("firstName", Value.vStr "John")])],
    clinicians := [], patientList := [],
    devices := [⟨some "pre123", "dev1",
      [("status", Value.vStr "active"),
       ("customerId", Value.vStr "abc"),
       ("serialNumber", Value.vStr "SN123456789"),
       ("deviceNumber", Value.vStr "987")]⟩],
    dailyReports := [] }

/-- A clinician with one assigned patient, plus an unassigned patient
document that exists in the store. -/
def sampleClinDb : Store :=
  { customers := [("p1", [("displayName", Value.vStr "P One")]),
                  ("p2", [("displayName", Value.vStr "P Two")])],
    clinicians := [("clin1", [("assignedPatients", Value.vStrList ["p1"])])],
    patientList := [], devices := [], dailyReports := [] }

/-- As `sampleClinDb` but without the unassigned patient document. -/
def sampleClinDbNoP2 : Store :=
  { customers := [("p1", [("displayName", Value.vStr "P One")])],
    clinicians := [("clin1", [("assignedPatients", Value.vStrList ["p1"])])],
    patientList := [], devices := [], dailyReports := [] }

/-- Three customers for the link-account variant: one with no `lineId`,
one already linked to `L9`, one with an empty `lineId`. -/
def sampleUsersDb : Store :=
  { customers := [("c1", [("firstName", Value.vStr "J")]),
                  ("c2", [("lineId", Value.vStr "L9")])],
    clinicians := [], patientList := [],
    devices := [⟨some "c1", "d1", [("serialNumber", Value.vStr "SN1")]⟩,
                ⟨some "c2", "d2", [("serialNumber", Value.vStr "SN2")]⟩],
    dailyReports := [] }

/-! ## Supporting lemmas. -/

theorem mem_insSorted (r : α → α → Bool) (x a : α) (l : List α) :
    a ∈ insSorted r x l ↔ a = x ∨ a ∈ l := by
  induction l with
  | nil => simp [insSorted]
  | cons y ys ih =>
    by_cases h : r x y = true
    · simp [insSorted, h, List.mem_cons]
    · simp [insSorted, h, List.mem_cons, ih]
      tauto

theorem pairwise_insSorted (r : α → α → Bool)
    (htot : ∀ a b, r a b = true ∨ r b a = true)
    (htrans : ∀ a b c, r a b = true → r b c = true → r a c = true)
    (x : α) (l : List α)
    (h : l.Pairwise (fun a b => r a b = true)) :
    (insSorted r x l).Pairwise (fun a b => r a b = true) := by
  induction l with
  | nil => simp [insSorted]
  | cons y ys ih =>
    rcases List.pairwise_cons.mp h with ⟨hy, hys⟩
    by_cases hxy : r x y = true
    · simp only [insSorted, hxy, if_true]
      refine List.pairwise_cons.mpr ⟨?_, h⟩
      intro b hb
      rcases List.mem_cons.mp hb with rfl | hb'
      · exact hxy
      · exact htrans x y b hxy (hy b hb')
    · simp only [insSorted, hxy, if_false, Bool.false_eq_true]
      refine List.pairwise_cons.mpr ⟨?_, ih hys⟩
      intro b hb
      rcases (mem_insSorted r x b ys).mp hb with hbx | hb'
      · rw [hbx]
        rcases htot x y with h1 | h1
        · exact absurd h1 hxy
        · exact h1
      · exact hy b hb'

theorem mem_sortOrd (r : α → α → Bool) (a : α) (l : List α) :
    a ∈ sortOrd r l ↔ a ∈ l := by
  induction l with
  | nil => simp [sortOrd]
  | cons x xs ih =>
    simp [sortOrd, mem_insSorted, ih, List.mem_cons]

theorem pairwise_sortOrd (r : α → α → Bool)
    (htot : ∀ a b, r a b = true ∨ r b a = true)
    (htrans : ∀ a b c, r a b = true → r b c = true → r a c = true)
    (l : List α) :
    (sortOrd r l).Pairwise (fun a b => r a b = true) := by
  induction l with
  | nil => simp [sortOrd]
  | cons x xs ih => exact pairwise_insSorted r htot htrans x (sortOrd r xs) ih

theorem dkLe_total (a b : Nat × Nat × Nat) :
    dkLe a b = true ∨ dkLe b a = true := by
  rcases a with ⟨a1, a2, a3⟩
  rcases b with ⟨b1, b2, b3⟩
  simp only [dkLe, decide_eq_true_eq]
  omega

theorem dkLe_trans (a b c : Nat × Nat × Nat)
    (h1 : dkLe a b = true) (h2 : dkLe b c = true) : dkLe a c = true := by
  rcases a with ⟨a1, a2, a3⟩
  rcases b with ⟨b1, b2, b3⟩
  rcases c with ⟨c1, c2, c3⟩
  simp only [dkLe, decide_eq_true_eq] at h1 h2 ⊢
  omega

theorem rDesc_total (a b : (Nat × Nat × Nat) × String × Doc) :
    rDesc a b = true ∨ rDesc b a = true := by
  rcases dkLe_total a.1 b.1 with h | h
  · exact Or.inr h
  · exact Or.inl h

theorem rDesc_trans (a b c : (Nat × Nat × Nat) × String × Doc)
    (h1 : rDesc a b = true) (h2 : rDesc b c = true) : rDesc a c = true :=
  dkLe_trans c.1 b.1 a.1 h2 h1

/-- The date key a report document carries (for stating the descending
order of a listing). -/
def dateKeyOf (d : Doc) : Nat × Nat × Nat :=
  match dGet d "reportDate" with
  | some (Value.vDate y m dd) => (y, m, dd)
  | _ => (0, 0, 0)

theorem reportEntry_key (uid : String) (a : (String × String) × Doc)
    (e : (Nat × Nat × Nat) × String × Doc)
    (h : reportEntry uid a = some e) :
    dGet e.2.2 "reportDate" =
      some (Value.vDate e.1.1 e.1.2.1 e.1.2.2) := by
  unfold reportEntry at h
  by_cases ha : a.1.1 = uid
  · rw [if_pos ha] at h
    cases hv : dGet a.2 "reportDate" with
    | none => rw [hv] at h; exact absurd h (by simp)
    | some v =>
      rw [hv] at h
      cases v with
      | vDate y m dd =>
        cases h
        exact hv
      | vStr s => exact absurd h (by simp)
      | vNat n => exact absurd h (by simp)
      | vTime t => exact absurd h (by simp)
      | vStrList xs => exact absurd h (by simp)
      | vNull => exact absurd h (by simp)
  · rw [if_neg ha] at h
    exact absurd h (by simp)

theorem dateKeyOf_entry (uid : String) (a : (String × String) × Doc)
    (e : (Nat × Nat × Nat) × String × Doc)
    (h : reportEntry uid a = some e) : dateKeyOf e.2.2 = e.1 := by
  unfold dateKeyOf
  rw [reportEntry_key uid a e h]

/-- The reshaping step (`report_data["reportId"] = doc.id`) does not
touch the `reportDate` field. -/
theorem dateKeyOf_dSet_reportId (d : Doc) (v : Value) :
    dateKeyOf (dSet d "reportId" v) = dateKeyOf d := by
  unfold dateKeyOf
  rw [dGet_dSet_other d "reportId" "reportDate" v (by decide)]

/-- A listing is ordered by report date descending. -/
theorem listDailyReports_sorted (db : Store) (uid : String) (n : Nat) :
    (listDailyReports db uid n).Pairwise
      (fun a b => dkLe (dateKeyOf b) (dateKeyOf a) = true) := by
  unfold listDailyReports
  rw [List.pairwise_map]
  have hsorted : (sortOrd rDesc
      (db.dailyReports.filterMap (reportEntry uid))).Pairwise
      (fun a b => rDesc a b = true) :=
    pairwise_sortOrd rDesc rDesc_total rDesc_trans _
  have htake := hsorted.sublist (List.take_sublist n _)
  have hkeys : ∀ e ∈ (sortOrd rDesc
      (db.dailyReports.filterMap (reportEntry uid))).take n,
      dateKeyOf e.2.2 = e.1 := by
    intro e he
    have he2 : e ∈ sortOrd rDesc (db.dailyReports.filterMap (reportEntry uid)) :=
      (List.take_sublist n _).mem he
    have he3 : e ∈ db.dailyReports.filterMap (reportEntry uid) :=
      (mem_sortOrd rDesc e _).mp he2
    rcases List.mem_filterMap.mp he3 with ⟨a, _, ha⟩
    exact dateKeyOf_entry uid a e ha
  refine List.Pairwise.imp_of_mem ?_ htake
  intro a b hma hmb hr
  rw [dateKeyOf_dSet_reportId, dateKeyOf_dSet_reportId,
      hkeys a hma, hkeys b hmb]
  exact hr

/-- A listing never exceeds the requested limit. -/
theorem listDailyReports_length (db : Store) (uid : String) (n : Nat) :
    (listDailyReports db uid n).length ≤ n := by
  unfold listDailyReports
  rw [List.length_map]
  exact List.length_take_le n _

/-- `dGet` skips a dumped field with a different key. -/
theorem dGet_consOpt_other (k : String) (v : Option Value) (d : Doc)
    (k' : String) (h : k' ≠ k) : dGet (consOpt k v d) k' = dGet d k' := by
  cases v with
  | none => rfl
  | some w => simp [consOpt, dGet, Ne.symm h]

/-- Every key of a dumped `CustomerProfilePayload` is one of the
thirteen snake_case aliases, so a lookup under any other key — in
particular under the camelCase keys the handler checks — finds
nothing. -/
theorem dGet_dump_other (p : ProfilePayload) (k : String)
    (h1 : k ≠ "line_id") (h2 : k ≠ "display_name") (h3 : k ≠ "title")
    (h4 : k ≠ "first_name") (h5 : k ≠ "last_name") (h6 : k ≠ "dob")
    (h7 : k ≠ "location") (h8 : k ≠ "status")
    (h9 : k ≠ "air_view_number") (h10 : k ≠ "monitoring_type")
    (h11 : k ≠ "available_data") (h12 : k ≠ "dealer_patient_id")
    (h13 : k ≠ "line_profile") :
    dGet (dumpProfilePayload p) k = none := by
  unfold dumpProfilePayload
  rw [dGet_consOpt_other _ _ _ _ h1, dGet_consOpt_other _ _ _ _ h2,
      dGet_consOpt_other _ _ _ _ h3, dGet_consOpt_other _ _ _ _ h4,
      dGet_consOpt_other _ _ _ _ h5, dGet_consOpt_other _ _ _ _ h6,
      dGet_consOpt_other _ _ _ _ h7, dGet_consOpt_other _ _ _ _ h8,
      dGet_consOpt_other _ _ _ _ h9, dGet_consOpt_other _ _ _ _ h10,
      dGet_consOpt_other _ _ _ _ h11, dGet_consOpt_other _ _ _ _ h12,
      dGet_consOpt_other _ _ _ _ h13]
  rfl

/-- The dumped dict never carries the camelCase `displayName` key. -/
theorem dump_no_displayName (p : ProfilePayload) :
    dHas (dumpProfilePayload p) "displayName" = false := by
  simp [dHas, dGet_dump_other p "displayName" (by decide) (by decide)
    (by decide) (by decide) (by decide) (by decide) (by decide) (by decide)
    (by decide) (by decide) (by decide) (by decide) (by decide)]

/-- The dumped dict never carries the camelCase `firstName` key. -/
theorem dump_no_firstName (p : ProfilePayload) :
    dHas (dumpProfilePayload p) "firstName" = false := by
  simp [dHas, dGet_dump_other p "firstName" (by decide) (by decide)
    (by decide) (by decide) (by decide) (by decide) (by decide) (by decide)
    (by decide) (by decide) (by decide) (by decide) (by decide)]

theorem assignedOf_congr (db db' : Store) (c : String)
    (h : aGet db'.clinicians c = aGet db.clinicians c) :
    assignedOf db' c = assignedOf db c := by
  unfold assignedOf
  rw [h]

theorem getPatientProfile_unassigned (db : Store) (c p : String)
    (h : ∀ xs, assignedOf db c = some xs → p ∉ xs) :
    getPatientProfile db c p = { status := 403, body := none } := by
  unfold getPatientProfile
  cases hA : assignedOf db c with
  | none => rfl
  | some xs =>
    dsimp only
    rw [if_neg (h xs hA)]

theorem getPatientDailyReports_unassigned (db : Store) (c p : String)
    (n : Nat) (h : ∀ xs, assignedOf db c = some xs → p ∉ xs) :
    getPatientDailyReports db c p n = { status := 403, items := [] } := by
  unfold getPatientDailyReports
  cases hA : assignedOf db c with
  | none => rfl
  | some xs =>
    dsimp only
    rw [if_neg (h xs hA)]

/-! ## Claim theorems. -/

/-- C1: the claim's scenario — serial `SN123456789` matching an
`unlink` device whose parent profile exists, caller `abc` holding a
pre-link `lineProfile`/`lineId` — evaluated on the code as written:
the handler fails with 500 before its device query (its first read of
the request, `link_request.serial_number` at `customers.py:265`, raises
`AttributeError` because the field is `serialNumber`), so the 200
response and the profile merge that the claim — and the repository's
own tests `test_link_device_preserves_line_profile` /
`test_link_device_copies_to_patients_collection` — describe never
happen, and the store is left unchanged. -/
theorem C1_link_crashes_500 :
    linkDevice sampleLinkDb "abc" ⟨"SN123456789", "987"⟩ BestEffort.none'
      555 "fresh1" = ({ status := 500, body := none }, sampleLinkDb) :=
  rfl

/-- C2: the claim's scenario — a serial number matching no `unlink`
device — evaluated on the code as written: the request-attribute crash
at `customers.py:265` fires before the collection-group query is ever
run, so the call fails with 500 (not the 404 the claim and the repo's
`test_link_device_not_found_in_firestore` assert); no write happens
either way, the store is returned unchanged. -/
theorem C2_unmatched_serial_500 :
    linkDevice emptyStore "abc" ⟨"SN123456789", "987"⟩ BestEffort.none'
      0 "f" = ({ status := 500, body := none }, emptyStore) :=
  rfl

/-- C3 counterexample: in the post-link store, where the matching
device has already been flipped to `active` and is owned by the same
caller, the second link-device call returns 500 (the handler crashes at
its first read of the request) — it neither short-circuits to a
conflict (409) nor reproduces the final document with a 200. -/
theorem C3_counterexample :
    (linkDevice sampleLinkedDb "abc" ⟨"SN123456789", "987"⟩
        BestEffort.none' 556 "f2").1.status = 500 ∧
    ¬((linkDevice sampleLinkedDb "abc" ⟨"SN123456789", "987"⟩
        BestEffort.none' 556 "f2").1.status = 409) ∧
    ¬((linkDevice sampleLinkedDb "abc" ⟨"SN123456789", "987"⟩
        BestEffort.none' 556 "f2").1.status = 200) := by
  decide

/-- C3 (amended): a second link-device call does not change the
caller's resulting profile — every link-device call, the second
included, fails with 500 at the handler's first read of the request
and leaves the entire store untouched — but it neither short-circuits
to a conflict nor reproduces the final document. -/
theorem C3_relink_crashes_store_unchanged (db : Store) (uid : String)
    (req : DeviceLinkReq) (flags : BestEffort) (now : Nat)
    (freshId : String) :
    (linkDevice db uid req flags now freshId).1.status = 500 ∧
    (linkDevice db uid req flags now freshId).2 = db :=
  ⟨rfl, rfl⟩

/-- C4 counterexample: a payload that supplies `serial_number` but
omits `device_number` does not pass validation — `DeviceLinkRequest`
declares `device_number` as required — so it is rejected with 422 and
never handed to the reconciliation engine. -/
theorem C4_counterexample :
    parseDeviceLinkRequest ⟨some "SN123456789", none⟩ = none ∧
    (linkDeviceEndpoint emptyStore "abc" ⟨some "SN123456789", none⟩
      BestEffort.none' 0 "f").1.status = 422 := by
  decide

/-- C4 (amended): both `serial_number` and `device_number` are
required (`device_number` exactly 3 characters); a payload supplying
both passes validation and is handed unchanged to the reconciliation
engine. -/
theorem C4_complete_payload_reaches_engine (db : Store) (uid : String)
    (flags : BestEffort) (now : Nat) (freshId : String)
    (p : RawLinkPayload) (s d : String)
    (hs : p.serialNumber = some s) (hd : p.deviceNumber = some d)
    (hlen : d.length = 3) :
    linkDeviceEndpoint db uid p flags now freshId =
      linkDevice db uid ⟨s, d⟩ flags now freshId := by
  unfold linkDeviceEndpoint parseDeviceLinkRequest
  rw [hs, hd]
  simp [hlen]

/-- Witness for C4 (amended): a complete payload reaches the engine. -/
theorem C4_witness :
    linkDeviceEndpoint sampleLinkDb "abc" ⟨some "SN123456789", some "987"⟩
      BestEffort.none' 555 "fresh1" =
    linkDevice sampleLinkDb "abc" ⟨"SN123456789", "987"⟩ BestEffort.none'
      555 "fresh1" :=
  C4_complete_payload_reaches_engine sampleLinkDb "abc" BestEffort.none'
    555 "fresh1" ⟨some "SN123456789", some "987"⟩ "SN123456789" "987"
    rfl rfl rfl

/-- C5: no execution of `link_device_to_profile` reaches the terminal
commit of step 7 — every call fails with 500 at the handler's first
read of the request (`customers.py:265`), before the first best-effort
step — so the claim's premise (a 200 response from a successful
terminal commit) is never realised, and the best-effort
failure-tolerance it describes (spec §8's testable property) is dead
code.  The status is 500 under every combination of best-effort
failure flags. -/
theorem C5_no_execution_reaches_commit (db : Store) (uid : String)
    (req : DeviceLinkReq) (flags : BestEffort) (now : Nat)
    (freshId : String) :
    (linkDevice db uid req flags now freshId).1.status = 500 ∧
    ¬((linkDevice db uid req flags now freshId).1.status = 200) :=
  ⟨rfl, by intro h; simp [linkDevice] at h⟩

/-- C6: evaluated on the code as written.  When a profile already
exists at the caller's id, creation returns 409 and performs no write —
that half of the claim holds.  When none exists, creation returns 422
and performs no write for **every** payload the endpoint can receive:
`model_dump(by_alias=True)` emits snake_case keys
(`display_name`/`first_name`/`last_name`), so the handler's camelCase
membership checks (`'displayName' in customer_data`, …) never pass, the
derivation never fires, and the 201 branch that would stamp `setupDate`
— asserted by the repo's own `test_create_customer_profile_success` —
is unreachable. -/
theorem C6_create_always_409_or_422 (db : Store) (uid : String)
    (p : ProfilePayload) (now : Nat) :
    (∀ c, aGet db.customers uid = some c →
      createCustomerProfileEndpoint db uid p now =
        ({ status := 409, body := none }, db)) ∧
    (aGet db.customers uid = none →
      createCustomerProfileEndpoint db uid p now =
        ({ status := 422, body := none }, db)) := by
  unfold createCustomerProfileEndpoint
  constructor
  · intro c hc
    unfold createCustomerProfile
    rw [hc]
  · intro h0
    unfold createCustomerProfile
    rw [h0]
    simp [dump_no_displayName, dump_no_firstName]

/-- Witness for C6: a caller who set `display_name` (dumped to the
snake_case key) still gets 422 against an empty store, with no write. -/
theorem C6_witness :
    createCustomerProfileEndpoint emptyStore "u1"
      ⟨none, some (Value.vStr "John Doe"), none, none, none, none, none,
       none, none, none, none, none, none⟩ 7 =
      ({ status := 422, body := none }, emptyStore) :=
  ((C6_create_always_409_or_422 emptyStore "u1"
    ⟨none, some (Value.vStr "John Doe"), none, none, none, none, none,
     none, none, none, none, none, none⟩ 7).2 rfl)

/-- C7: evaluated on the code as written.  The listing half of the
claim holds — a listing never exceeds the requested limit and is
ordered by report date descending — but the submission half does not:
every `submit_daily_report` call fails with 500 at
`report_in.report_date` (`customers.py:416`; the field is `reportDate`)
and writes nothing, so the overwrite-on-same-date behaviour the claim —
and the repo's `test_submit_daily_report_success` — describe never
occurs. -/
theorem C7_submit_crashes_listing_intact (db : Store) (uid : String)
    (r : DailyReportIn) (n : Nat) :
    submitDailyReport db uid r = ({ status := 500, body := none }, db) ∧
    validateLimit none = some 30 ∧
    (listDailyReports db uid n).length ≤ n ∧
    (listDailyReports db uid n).Pairwise
      (fun a b => dkLe (dateKeyOf b) (dateKeyOf a) = true) :=
  ⟨rfl, rfl, listDailyReports_length db uid n, listDailyReports_sorted db uid n⟩

/-- C8: a clinician whose `assignedPatients` roster does not contain
the requested patient id always receives 403 from both the
patient-profile and the patient-dailyReports endpoints, and the
response is identical in any store holding the same clinician document
— in particular, whether or not a patient document with that id exists,
so existence is never leaked through a 404. -/
theorem C8_unassigned_clinician_403_no_leak (db db' : Store)
    (c p : String) (n : Nat)
    (h : ∀ xs, assignedOf db c = some xs → p ∉ xs)
    (hsame : aGet db'.clinicians c = aGet db.clinicians c) :
    getPatientProfile db c p = { status := 403, body := none } ∧
    getPatientDailyReports db c p n = { status := 403, items := [] } ∧
    getPatientProfile db' c p = getPatientProfile db c p ∧
    getPatientDailyReports db' c p n = getPatientDailyReports db c p n := by
  have h' : ∀ xs, assignedOf db' c = some xs → p ∉ xs := by
    intro xs hxs
    rw [assignedOf_congr db db' c hsame] at hxs
    exact h xs hxs
  refine ⟨getPatientProfile_unassigned db c p h,
          getPatientDailyReports_unassigned db c p n h, ?_, ?_⟩
  · rw [getPatientProfile_unassigned db' c p h',
        getPatientProfile_unassigned db c p h]
  · rw [getPatientDailyReports_unassigned db' c p n h',
        getPatientDailyReports_unassigned db c p n h]

/-- Witness for C8: clinician `clin1` (assigned only `p1`) asking for
`p2` gets 403 from both endpoints, identically whether the `p2`
document exists (`sampleClinDb`) or not (`sampleClinDbNoP2`). -/
theorem C8_witness :
    getPatientProfile sampleClinDb "clin1" "p2" =
      { status := 403, body := none } ∧
    getPatientDailyReports sampleClinDb "clin1" "p2" 30 =
      { status := 403, items := [] } ∧
    getPatientProfile sampleClinDbNoP2 "clin1" "p2" =
      getPatientProfile sampleClinDb "clin1" "p2" ∧
    getPatientDailyReports sampleClinDbNoP2 "clin1" "p2" 30 =
      getPatientDailyReports sampleClinDb "clin1" "p2" 30 :=
  C8_unassigned_clinician_403_no_leak sampleClinDb sampleClinDbNoP2
    "clin1" "p2" 30
    (by
      intro xs hxs
      have hred : some ["p1"] = some xs := hxs
      cases hred
      decide)
    rfl

/-- C9 counterexample: an upstream-accepted introspection response with
the matching `client_id` and a present-but-empty `sub` is rejected with
401 instead of yielding the empty subject id — Python's `if not
line_id:` treats the empty string like a missing field. -/
theorem C9_counterexample :
    verifyLineToken "chan" ⟨some "chan", some ""⟩ = Except.error 401 ∧
    ¬(verifyLineToken "chan" ⟨some "chan", some ""⟩ = Except.ok "") := by
  refine ⟨rfl, ?_⟩
  intro h
  exact Except.noConfusion h

/-- C9 (amended): remote identity verification fails with 401 whenever
the introspection response's `client_id` differs from the configured
channel id or its `sub` field is missing or empty; when the `client_id`
matches and `sub` is present and non-empty it returns exactly that
`sub`; and it performs no write — the store passes through unchanged. -/
theorem C9_remote_verification (channelId : String)
    (d : IntrospectionResp) (db : Store) :
    (d.clientId ≠ some channelId →
      verifyLineToken channelId d = Except.error 401) ∧
    (d.sub = none → verifyLineToken channelId d = Except.error 401) ∧
    (d.sub = some "" → verifyLineToken channelId d = Except.error 401) ∧
    (∀ s, d.clientId = some channelId → d.sub = some s → s ≠ "" →
      verifyLineToken channelId d = Except.ok s) ∧
    (verifyLineTokenSt db channelId d).2 = db := by
  refine ⟨?_, ?_, ?_, ?_, rfl⟩
  · intro h
    unfold verifyLineToken
    rw [if_pos h]
  · intro h
    unfold verifyLineToken
    by_cases hc : d.clientId ≠ some channelId
    · rw [if_pos hc]
    · rw [if_neg hc, h]
  · intro h
    unfold verifyLineToken
    by_cases hc : d.clientId ≠ some channelId
    · rw [if_pos hc]
    · rw [if_neg hc, h]
      simp
  · intro s h1 h2 h3
    unfold verifyLineToken
    rw [if_neg (by simp [h1]), h2]
    dsimp only
    rw [if_neg h3]

/-- Witness for C9 (amended): a matching channel id with a non-empty
`sub` yields that subject id. -/
theorem C9_witness :
    verifyLineToken "chan" ⟨some "chan", some "U123"⟩ =
      Except.ok "U123" :=
  (C9_remote_verification "chan" ⟨some "chan", some "U123"⟩
    emptyStore).2.2.2.1 "U123" rfl rfl (by decide)

/-- C10: the link-account variant never overwrites an existing
non-empty `lineId` on the matched device's parent customer: a
different stored (non-empty) `lineId` yields 409 with the store
unchanged; a stored `lineId` equal to the caller's yields 204 without
any write; and the caller's line id is written only when the parent
holds no non-empty `lineId` (the caller's id, produced by token
verification, is itself non-empty). -/
theorem C10_link_account_preserves_line_id (db : Store)
    (lineId sn : String) (dev : Device) (cid : String) (cdoc : Doc)
    (hline : lineId ≠ "")
    (hdev : findDeviceBySerial db sn = some dev)
    (hown : dev.owner = some cid)
    (hdoc : aGet db.customers cid = some cdoc) :
    (∀ s, truthyStr (dGet cdoc "lineId") = some s → s ≠ lineId →
      linkAccount db lineId sn = ({ status := 409, body := none }, db)) ∧
    (truthyStr (dGet cdoc "lineId") = some lineId →
      linkAccount db lineId sn = ({ status := 204, body := none }, db)) ∧
    (truthyStr (dGet cdoc "lineId") = none →
      linkAccount db lineId sn = ({ status := 204, body := none },
        { db with customers :=
                    aSet db.customers cid
                      (dSet cdoc "lineId" (Value.vStr lineId)) })) := by
  unfold linkAccount
  simp only [hdev]
  simp only [hown]
  simp only [hdoc]
  refine ⟨?_, ?_, ?_⟩
  · intro s hs hne
    rw [hs]
    simp [hne]
  · intro hs
    rw [hs]
    simp
  · intro hs
    rw [hs]

/-- Witness for C10: caller `L1` may not claim a device whose parent is
already linked to `L9` — 409, store unchanged. -/
theorem C10_witness :
    linkAccount sampleUsersDb "L1" "SN2" =
      ({ status := 409, body := none }, sampleUsersDb) :=
  (C10_link_account_preserves_line_id sampleUsersDb "L1" "SN2"
    ⟨some "c2", "d2", [("serialNumber", Value.vStr "SN2")]⟩ "c2"
    [("lineId", Value.vStr "L9")] (by decide) (by decide) rfl rfl).1
    "L9" rfl (by decide)

end MegaCare
